import Mathlib

/-!
Verification of the tile-request pipeline of `minimal-mvt.py`
(addresscloud/minimal-mvt), a tile server translating web-map tile
addresses `(zoom, x, y, format)` into PostGIS MVT queries.

Embedding conventions:
* Python `float` arithmetic is modelled exactly over `ℚ` (every constant
  and operation of the source on the inputs of interest is exact in the
  rationals; the source formulas involve only `+ - * /` and powers of two).
* Python exceptions (`KeyError`, `ValueError` from `int(...)`, `NameError`)
  are modelled with `Except PyError`.
* Python dicts that the source mutates (`env['segSize'] = ...`) are
  modelled by explicit state passing: the function returns the post-state
  of the dict alongside its ordinary result.
* The module-level `TABLE` dict (loaded from environment variables) is a
  read-only configuration value threaded as a parameter; `envelopeToSQL`
  returns its post-state as well so that non-mutation is a statable fact.
* The AWS Data API call in `sqlToPbf` is an external collaborator,
  abstracted as an oracle `String → String` from the SQL text to the
  returned blob.
-/

deriving instance DecidableEq for Except

/-- Python exceptions that can escape the pipeline functions. -/
inductive PyError where
  | keyError : String → PyError
  | valueError : PyError
  | nameError : String → PyError
deriving DecidableEq, Repr

/-- The tile dict built by `pathToTile`: keys `zoom`, `x`, `y`, `format`
are always present on a dict it returns, so it is a plain structure. -/
structure Tile where
  zoom : Int
  x : Int
  y : Int
  format : String
deriving DecidableEq, Repr

/-- The envelope dict built by `tileToEnvelope`: keys `xmin`, `ymin`,
`xmax`, `ymax` always present; the `segSize` key is absent (`none`) until
`envelopeToBoundsSQL` assigns it. -/
structure Env where
  xmin : ℚ
  ymin : ℚ
  xmax : ℚ
  ymax : ℚ
  segSize : Option ℚ := none
deriving DecidableEq, Repr

/-- The module-level `TABLE` configuration dict (its four fixed keys). -/
structure TableSpec where
  table : String
  srid : String
  geomColumn : String
  attrColumns : String
deriving DecidableEq, Repr

/-- Python `params[k]` on the path-parameter dict, modelled as first-match
lookup in an association list; a missing key raises `KeyError`. -/
def getItem (ps : List (String × String)) (k : String) : Except PyError String :=
  match ps.lookup k with
  | some v => Except.ok v
  | none => Except.error (PyError.keyError k)

/-- ASCII whitespace, the characters Python `int(...)` strips from both
ends of its argument (unicode whitespace is out of the model's scope). -/
def isSpaceChar (c : Char) : Bool :=
  c = ' ' ∨ c = '\t' ∨ c = '\n' ∨ c = '\r' ∨ c = '\x0b' ∨ c = '\x0c'

/-- Drop leading whitespace from a character list. -/
def dropSpaces : List Char → List Char
  | [] => []
  | c :: cs => if isSpaceChar c then dropSpaces cs else c :: cs

/-- Strip whitespace from both ends of a character list. -/
def stripChars (cs : List Char) : List Char :=
  ((dropSpaces ((dropSpaces cs).reverse)).reverse)

/-- Decimal value of a digit run. -/
def digitsVal (ds : List Char) : Nat :=
  ds.foldl (fun a c => 10 * a + (c.toNat - 48)) 0

/-- Python `int(s)` on a string: strips surrounding whitespace, accepts an
optional sign followed by a non-empty run of decimal digits, raises
`ValueError` otherwise (digit-group underscores and non-ASCII digits are
out of the model's scope; the request paths of interest never carry
them). -/
def pyInt (s : String) : Except PyError Int :=
  match stripChars s.data with
  | [] => Except.error PyError.valueError
  | c :: cs =>
    let signed : Bool × List Char :=
      if c = '-' then (true, cs) else if c = '+' then (false, cs) else (false, c :: cs)
    match signed with
    | (neg, ds) =>
      if ds ≠ [] ∧ ds.all Char.isDigit then
        Except.ok (if neg then -(digitsVal ds : Int) else (digitsVal ds : Int))
      else Except.error PyError.valueError

/-- `TileRequestHandler.pathToTile` (lines 16-26): on a truthy parameter
mapping, convert `z`, `x`, `y` with `int(...)` (values evaluated in that
order) and hard-code the format to `mvt`; on a falsy (absent or empty)
mapping, return `None`. -/
def pathToTile (params : Option (List (String × String))) : Except PyError (Option Tile) :=
  match params with
  | none => Except.ok none
  | some ps =>
    if ps.isEmpty then Except.ok none
    else
      match getItem ps "z" with
      | Except.error e => Except.error e
      | Except.ok zs =>
        match pyInt zs with
        | Except.error e => Except.error e
        | Except.ok z =>
          match getItem ps "x" with
          | Except.error e => Except.error e
          | Except.ok xs =>
            match pyInt xs with
            | Except.error e => Except.error e
            | Except.ok x =>
              match getItem ps "y" with
              | Except.error e => Except.error e
              | Except.ok ys =>
                match pyInt ys with
                | Except.error e => Except.error e
                | Except.ok y =>
                  Except.ok (some { zoom := z, x := x, y := y, format := "mvt" })

/-- `TileRequestHandler.tileIsValid` (lines 30-40).  The two key-presence
checks of lines 31-33 are absorbed by the `Tile` structure type (every
`Tile` value carries all four keys); the remaining checks are translated
literally.  `2 ** tile['zoom']` is Python integer/float power, exact over
`ℚ` as `zpow`; the comparisons of `int` against it are exact as well. -/
def tileIsValid (tile : Tile) : Bool :=
  if ¬(tile.format = "pbf" ∨ tile.format = "mvt") then false
  else
    let size : ℚ := (2 : ℚ) ^ tile.zoom
    if (tile.x : ℚ) ≥ size ∨ (tile.y : ℚ) ≥ size then false
    else if tile.x < 0 ∨ tile.y < 0 then false
    else true

/-- `worldMercMax` constant of `tileToEnvelope` (line 46). -/
def worldMercMax : ℚ := 20037508.3427892

/-- `worldMercMin` constant of `tileToEnvelope` (line 47). -/
def worldMercMin : ℚ := -1 * worldMercMax

/-- `worldMercSize` constant of `tileToEnvelope` (line 48). -/
def worldMercSize : ℚ := worldMercMax - worldMercMin

/-- `TileRequestHandler.tileToEnvelope` (lines 44-61), translated
literally; the fresh `env` dict has no `segSize` key yet. -/
def tileToEnvelope (tile : Tile) : Env :=
  let worldTileSize : ℚ := (2 : ℚ) ^ tile.zoom
  let tileMercSize : ℚ := worldMercSize / worldTileSize
  { xmin := worldMercMin + tileMercSize * (tile.x : ℚ)
    xmax := worldMercMin + tileMercSize * ((tile.x : ℚ) + 1)
    ymin := worldMercMax - tileMercSize * ((tile.y : ℚ) + 1)
    ymax := worldMercMax - tileMercSize * (tile.y : ℚ)
    segSize := none }

/-- Stand-in for Python string rendering of a float when substituted into
an SQL template; any injective rendering preserves the properties proved
here (the claims about the SQL text concern determinism only). -/
def ratStr (q : ℚ) : String := toString q

/-- `TileRequestHandler.envelopeToBoundsSQL` (lines 67-71).  The source
assigns `env['segSize'] = (env['xmax'] - env['xmin'])/DENSIFY_FACTOR`,
mutating the caller's dict, then formats the template; the post-state of
`env` is returned alongside the SQL text. -/
def envelopeToBoundsSQL (env : Env) : Env × String :=
  let DENSIFY_FACTOR : ℚ := 4
  let env2 : Env := { env with segSize := some ((env.xmax - env.xmin) / DENSIFY_FACTOR) }
  let sql : String :=
    "ST_Segmentize(ST_MakeEnvelope(" ++ ratStr env2.xmin ++ ", " ++ ratStr env2.ymin ++
      ", " ++ ratStr env2.xmax ++ ", " ++ ratStr env2.ymax ++ ", 3857)," ++
      ratStr ((env.xmax - env.xmin) / DENSIFY_FACTOR) ++ ")"
  (env2, sql)

/-- `TileRequestHandler.envelopeToSQL` (lines 76-96).  The source copies
the module-level `TABLE` dict (`tbl = TABLE.copy()`), adds the bounds SQL
under key `env` to the copy, and formats the query template.  The first
component of the result is the post-state of `TABLE` (unchanged, since
only the copy is written to), the second the post-state of the envelope
dict mutated inside `envelopeToBoundsSQL`, the third the SQL text. -/
def envelopeToSQL (TABLE : TableSpec) (env : Env) : TableSpec × Env × String :=
  let tbl := TABLE
  let res := envelopeToBoundsSQL env
  let envSQL := res.2
  let sql : String :=
    "\n            WITH \n            bounds AS (\n                SELECT " ++ envSQL ++
      " AS geom, \n                       " ++ envSQL ++
      "::box2d AS b2d\n            ),\n            mvtgeom AS (\n                SELECT ST_AsMVTGeom(ST_Transform(ST_Force2D(t." ++
      tbl.geomColumn ++ "), 3857), bounds.b2d) AS geom, \n                       " ++
      tbl.attrColumns ++ "\n                FROM " ++ tbl.table ++
      " t, bounds\n                WHERE ST_Intersects(t." ++ tbl.geomColumn ++
      ", ST_Transform(bounds.geom, " ++ tbl.srid ++
      "))\n            ) \n            SELECT ST_AsMVT(mvtgeom.*) FROM mvtgeom\n        "
  (TABLE, res.1, sql)

/-- Pipeline stages of `lambda_handler`, recorded as an execution trace so
that "never reaches stage S" is a statable fact. -/
inductive Stage where
  | parse
  | validate
  | project
  | buildQuery
  | execute
deriving DecidableEq, Repr

/-- The HTTP-shaped response dict of `lambda_handler` (the fields the
claims mention). -/
structure Response where
  statusCode : Nat
  body : String
deriving DecidableEq, Repr

/-- `lambda_handler` (lines 128-155).  `execStatement` abstracts the AWS
Data API round trip of `sqlToPbf` plus the base64 wrapping of the body.
On a falsy or invalid tile the source builds the 400 body with
`json.dumps("invalid tile path: %s" % (self.path))`; `self` is not bound
in `lambda_handler`, so evaluating that expression raises
`NameError("self")` before any response dict is produced.  The second
component records which pipeline stages executed. -/
def lambda_handler (TABLE : TableSpec) (execStatement : String → String)
    (pathParameters : Option (List (String × String))) :
    Except PyError Response × List Stage :=
  match pathToTile pathParameters with
  | Except.error e => (Except.error e, [Stage.parse])
  | Except.ok none =>
    (Except.error (PyError.nameError "self"), [Stage.parse, Stage.validate])
  | Except.ok (some tile) =>
    if tileIsValid tile then
      let env := tileToEnvelope tile
      let res := envelopeToSQL TABLE env
      let sql := res.2.2
      let pbf := execStatement sql
      (Except.ok { statusCode := 200, body := pbf },
        [Stage.parse, Stage.validate, Stage.project, Stage.buildQuery, Stage.execute])
    else
      (Except.error (PyError.nameError "self"), [Stage.parse, Stage.validate])

/-- Modelled from the spec (§4.3): the envelope formula as the spec words
it, for a refinement comparison with `tileToEnvelope`: `tileWidth =
worldSize / 2^z`, `xmin = worldMin + tileWidth*x`, `xmax = worldMin +
tileWidth*(x+1)`, `ymin = worldMax - tileWidth*(y+1)`, `ymax = worldMax -
tileWidth*y`, with `worldMin = -20037508.3427892` and `worldMax =
+20037508.3427892`. -/
def specTileEnvelope (z x y : Int) : Env :=
  let worldMin : ℚ := -20037508.3427892
  let worldMax : ℚ := 20037508.3427892
  let worldSize : ℚ := worldMax - worldMin
  let tileWidth : ℚ := worldSize / (2 : ℚ) ^ z
  { xmin := worldMin + tileWidth * (x : ℚ)
    xmax := worldMin + tileWidth * ((x : ℚ) + 1)
    ymin := worldMax - tileWidth * ((y : ℚ) + 1)
    ymax := worldMax - tileWidth * (y : ℚ)
    segSize := none }

/-- A path-parameter entry whose value Python `int` cannot parse, or
which is missing entirely: the situations in which building the tile dict
raises. -/
def entryMalformed (ps : List (String × String)) (k : String) : Bool :=
  match ps.lookup k with
  | none => true
  | some v =>
    match pyInt v with
    | Except.error _ => true
    | Except.ok _ => false

/-- A concrete table configuration, as the environment variables of the
source would populate it (`geomColumn` and `attrColumns` are the
hard-coded values of the source's `TABLE` dict). -/
def demoTable : TableSpec :=
  { table := "points", srid := "4326", geomColumn := "geom", attrColumns := "id" }

/-- The concrete tile of the source's example request
`http://localhost:8080/9/255/170.mvt`. -/
def demoTile : Tile := { zoom := 9, x := 255, y := 170, format := "mvt" }

/-- If `params[k]` succeeds then the association list holds `v` under `k`. -/
theorem getItem_ok {ps : List (String × String)} {k v : String}
    (h : getItem ps k = Except.ok v) : ps.lookup k = some v := by
  unfold getItem at h
  cases hl : ps.lookup k with
  | none => rw [hl] at h; cases h
  | some w => rw [hl] at h; injection h with h2; rw [h2]

example : pyInt "255" = Except.ok 255 := by decide
example : pyInt "-3" = Except.ok (-3) := by decide
example : pyInt "abc" = Except.error PyError.valueError := by decide
example : pyInt " 42 " = Except.ok 42 := by decide
example : pyInt "" = Except.error PyError.valueError := by decide
example : pyInt "+7" = Except.ok 7 := by decide
example : pyInt "1.5" = Except.error PyError.valueError := by decide
example : pyInt "-" = Except.error PyError.valueError := by decide
example : tileIsValid { zoom := 2, x := 4, y := 0, format := "mvt" } = false := by
  norm_num [tileIsValid]
example : tileIsValid { zoom := -1, x := 0, y := 0, format := "mvt" } = true := by
  simp [tileIsValid]
example : tileToEnvelope { zoom := 0, x := 0, y := 0, format := "mvt" } =
    { xmin := -20037508.3427892, ymin := -20037508.3427892,
      xmax := 20037508.3427892, ymax := 20037508.3427892, segSize := none } := by
  simp [tileToEnvelope, worldMercMin, worldMercMax, worldMercSize]
example : pathToTile (some [("z", "2"), ("x", "4"), ("y", "0")]) =
    Except.ok (some { zoom := 2, x := 4, y := 0, format := "mvt" }) := by decide
example : pathToTile (some []) = Except.ok none := by decide
example : pathToTile none = Except.ok none := by decide
example : pathToTile (some [("z", "2"), ("x", "4")]) =
    Except.error (PyError.keyError "y") := by decide

/-- Claim C1: for every valid tile address (zoom `z ≥ 0`, `0 ≤ x < 2^z`,
`0 ≤ y < 2^z`), `tileToEnvelope` returns the envelope given by the spec
formula (`tileWidth = worldSize / 2^z`, `xmin = worldMin + tileWidth*x`,
`xmax = worldMin + tileWidth*(x+1)`, `ymin = worldMax - tileWidth*(y+1)`,
`ymax = worldMax - tileWidth*y`); in particular tile `(0,0,0)` gets the
full world extent on both axes. -/
theorem tileToEnvelope_matches_spec_formula :
    (∀ tile : Tile, 0 ≤ tile.zoom → 0 ≤ tile.x → tile.x < 2 ^ tile.zoom.toNat →
        0 ≤ tile.y → tile.y < 2 ^ tile.zoom.toNat →
        tileToEnvelope tile = specTileEnvelope tile.zoom tile.x tile.y) ∧
      tileToEnvelope { zoom := 0, x := 0, y := 0, format := "mvt" } =
        { xmin := -20037508.3427892, ymin := -20037508.3427892,
          xmax := 20037508.3427892, ymax := 20037508.3427892, segSize := none } := by
  constructor
  · intro tile _ _ _ _ _
    obtain ⟨z, x, y, f⟩ := tile
    simp only [tileToEnvelope, specTileEnvelope, worldMercMin, worldMercMax, worldMercSize,
      Env.mk.injEq]
    norm_num
  · simp [tileToEnvelope, worldMercMin, worldMercMax, worldMercSize]

/-- Witness for C1: the general formula instantiated at the concrete valid
tile `(z, x, y) = (1, 1, 0)`. -/
theorem tileToEnvelope_matches_spec_formula_witness :
    tileToEnvelope { zoom := 1, x := 1, y := 0, format := "mvt" } = specTileEnvelope 1 1 0 :=
  tileToEnvelope_matches_spec_formula.1 { zoom := 1, x := 1, y := 0, format := "mvt" }
    (by decide) (by decide) (by decide) (by decide) (by decide)

/-- Claim C2: for a tile with format `mvt` and zoom `z ≥ 0`, `tileIsValid`
returns `true` exactly when `0 ≤ x < 2^z` and `0 ≤ y < 2^z`. -/
theorem tileIsValid_iff_in_bounds (tile : Tile) (hf : tile.format = "mvt")
    (hz : 0 ≤ tile.zoom) :
    tileIsValid tile = true ↔
      0 ≤ tile.x ∧ tile.x < 2 ^ tile.zoom.toNat ∧
        0 ≤ tile.y ∧ tile.y < 2 ^ tile.zoom.toNat := by
  obtain ⟨z, x, y, f⟩ := tile
  dsimp only at hf hz ⊢
  subst hf
  obtain ⟨n, rfl⟩ : ∃ n : ℕ, z = (n : ℤ) := ⟨z.toNat, (Int.toNat_of_nonneg hz).symm⟩
  simp only [tileIsValid, Int.toNat_natCast]
  rw [if_neg (by simp), zpow_natCast]
  split_ifs with h1 h2
  · simp only [Bool.false_eq_true, false_iff]
    rintro ⟨ha, hb, hc, hd⟩
    rcases h1 with h | h
    · have hx : (2 ^ n : ℤ) ≤ x := by exact_mod_cast h
      omega
    · have hy : (2 ^ n : ℤ) ≤ y := by exact_mod_cast h
      omega
  · simp only [Bool.false_eq_true, false_iff]
    rintro ⟨ha, hb, hc, hd⟩
    omega
  · simp only [true_iff]
    push_neg at h1 h2
    refine ⟨h2.1, ?_, h2.2, ?_⟩
    · exact_mod_cast h1.1
    · exact_mod_cast h1.2

/-- Witness for C2: the equivalence at the concrete in-bounds tile
`(z, x, y) = (2, 3, 1)`. -/
theorem tileIsValid_iff_in_bounds_witness :
    tileIsValid { zoom := 2, x := 3, y := 1, format := "mvt" } = true :=
  (tileIsValid_iff_in_bounds { zoom := 2, x := 3, y := 1, format := "mvt" } rfl
    (by decide)).mpr (by decide)

/-- Claim C3 (code bug): on the invalid tile address `z=2, x=4, y=0` the
handler short-circuits before projection and query construction, but the
400 body expression evaluates the unbound name `self`, so the handler
raises `NameError` instead of returning the claimed client-error
response with a descriptive message. -/
theorem lambda_handler_invalid_tile_raises_name_error :
    ∀ (TABLE : TableSpec) (execStatement : String → String),
      lambda_handler TABLE execStatement (some [("z", "2"), ("x", "4"), ("y", "0")]) =
        (Except.error (PyError.nameError "self"), [Stage.parse, Stage.validate]) := by
  intro TABLE execStatement
  have hp : pathToTile (some [("z", "2"), ("x", "4"), ("y", "0")]) =
      Except.ok (some { zoom := 2, x := 4, y := 0, format := "mvt" }) := by decide
  have hv : tileIsValid { zoom := 2, x := 4, y := 0, format := "mvt" } = false := by
    norm_num [tileIsValid]
  simp [lambda_handler, hp, hv]

/-- Claim C4: for a non-empty parameter mapping in which `z`, `x` or `y`
is absent or non-numeric, the parser raises (the `MalformedAddress`
condition); for an absent or empty mapping it returns the null result,
which is distinct from any raised error. -/
theorem pathToTile_malformed_and_empty_behaviour :
    (∀ ps : List (String × String), ps ≠ [] →
        (entryMalformed ps "z" = true ∨ entryMalformed ps "x" = true ∨
          entryMalformed ps "y" = true) →
        ∃ e : PyError, pathToTile (some ps) = Except.error e) ∧
      pathToTile none = Except.ok none ∧
      pathToTile (some []) = Except.ok none ∧
      ∀ (t : Option Tile) (e : PyError),
        (Except.ok t : Except PyError (Option Tile)) ≠ Except.error e := by
  refine ⟨?_, rfl, rfl, fun t e h => Except.noConfusion h⟩
  intro ps hne hbad
  have hEmpty : ps.isEmpty = false := by
    cases ps with
    | nil => exact absurd rfl hne
    | cons a l => rfl
  simp only [pathToTile, hEmpty, Bool.false_eq_true, if_false]
  cases hgz : getItem ps "z" with
  | error e => exact ⟨e, by simp⟩
  | ok zs =>
    cases hpz : pyInt zs with
    | error e => exact ⟨e, by simp [hpz]⟩
    | ok z =>
      cases hgx : getItem ps "x" with
      | error e => exact ⟨e, by simp [hpz]⟩
      | ok xs =>
        cases hpx : pyInt xs with
        | error e => exact ⟨e, by simp [hpz, hpx]⟩
        | ok x =>
          cases hgy : getItem ps "y" with
          | error e => exact ⟨e, by simp [hpz, hpx]⟩
          | ok ys =>
            cases hpy : pyInt ys with
            | error e => exact ⟨e, by simp [hpz, hpx, hpy]⟩
            | ok y =>
              exfalso
              rcases hbad with hb | hb | hb
              · unfold entryMalformed at hb
                rw [getItem_ok hgz] at hb
                simp [hpz] at hb
              · unfold entryMalformed at hb
                rw [getItem_ok hgx] at hb
                simp [hpx] at hb
              · unfold entryMalformed at hb
                rw [getItem_ok hgy] at hb
                simp [hpy] at hb

/-- Witness for C4: the malformed-entry branch at the concrete mapping
whose `z` value is the non-numeric string `zoom`. -/
theorem pathToTile_malformed_and_empty_behaviour_witness :
    ∃ e : PyError,
      pathToTile (some [("z", "zoom"), ("x", "0"), ("y", "0")]) = Except.error e :=
  pathToTile_malformed_and_empty_behaviour.1 [("z", "zoom"), ("x", "0"), ("y", "0")]
    (by decide) (Or.inl (by decide))

/-- Claim C5: for every envelope, the segment size computed by the
densifier is exactly `(xmax - xmin) / 4`, with `4` the fixed
densification factor. -/
theorem envelopeToBoundsSQL_segSize_eq (env : Env) :
    ((envelopeToBoundsSQL env).1).segSize = some ((env.xmax - env.xmin) / 4) := rfl

/-- Claim C6: horizontally adjacent tiles share an x-edge
(`xmax (z,x,y) = xmin (z,x+1,y)`) and, under the y-axis inversion,
vertically adjacent rows share a y-edge (`ymax (z,x,y) = ymin (z,x,y-1)`). -/
theorem tileToEnvelope_adjacent_tiles_share_edges (z x y : Int) (_hz : 0 ≤ z)
    (_hx0 : 0 ≤ x) (_hx1 : x < 2 ^ z.toNat) (_hy0 : 0 ≤ y) (_hy1 : y < 2 ^ z.toNat) :
    (tileToEnvelope { zoom := z, x := x, y := y, format := "mvt" }).xmax =
        (tileToEnvelope { zoom := z, x := x + 1, y := y, format := "mvt" }).xmin ∧
      (tileToEnvelope { zoom := z, x := x, y := y, format := "mvt" }).ymax =
        (tileToEnvelope { zoom := z, x := x, y := y - 1, format := "mvt" }).ymin := by
  constructor <;>
    · simp only [tileToEnvelope]
      push_cast
      ring

/-- Witness for C6: the shared edges at the concrete valid tile
`(z, x, y) = (1, 0, 1)`. -/
theorem tileToEnvelope_adjacent_tiles_share_edges_witness :
    (tileToEnvelope { zoom := 1, x := 0, y := 1, format := "mvt" }).xmax =
        (tileToEnvelope { zoom := 1, x := 1, y := 1, format := "mvt" }).xmin ∧
      (tileToEnvelope { zoom := 1, x := 0, y := 1, format := "mvt" }).ymax =
        (tileToEnvelope { zoom := 1, x := 0, y := 0, format := "mvt" }).ymin :=
  tileToEnvelope_adjacent_tiles_share_edges 1 0 1 (by decide) (by decide) (by decide)
    (by decide) (by decide)

/-- Claim C7: for every valid tile the envelope is square, both side
lengths equal `worldSize / 2^zoom` (exactly, in the rational model), and
`xmin < xmax`, `ymin < ymax`. -/
theorem tileToEnvelope_square_tiles (z x y : Int) (_hz : 0 ≤ z) (_hx0 : 0 ≤ x)
    (_hx1 : x < 2 ^ z.toNat) (_hy0 : 0 ≤ y) (_hy1 : y < 2 ^ z.toNat) :
    (tileToEnvelope { zoom := z, x := x, y := y, format := "mvt" }).xmax -
          (tileToEnvelope { zoom := z, x := x, y := y, format := "mvt" }).xmin =
        (tileToEnvelope { zoom := z, x := x, y := y, format := "mvt" }).ymax -
          (tileToEnvelope { zoom := z, x := x, y := y, format := "mvt" }).ymin ∧
      (tileToEnvelope { zoom := z, x := x, y := y, format := "mvt" }).xmax -
          (tileToEnvelope { zoom := z, x := x, y := y, format := "mvt" }).xmin =
        worldMercSize / (2 : ℚ) ^ z ∧
      (tileToEnvelope { zoom := z, x := x, y := y, format := "mvt" }).xmin <
        (tileToEnvelope { zoom := z, x := x, y := y, format := "mvt" }).xmax ∧
      (tileToEnvelope { zoom := z, x := x, y := y, format := "mvt" }).ymin <
        (tileToEnvelope { zoom := z, x := x, y := y, format := "mvt" }).ymax := by
  have hws : (0 : ℚ) < worldMercSize := by
    norm_num [worldMercSize, worldMercMax, worldMercMin]
  have hp2 : (0 : ℚ) < (2 : ℚ) ^ z := by positivity
  have hT : 0 < worldMercSize / (2 : ℚ) ^ z := div_pos hws hp2
  have hx : (tileToEnvelope { zoom := z, x := x, y := y, format := "mvt" }).xmax -
      (tileToEnvelope { zoom := z, x := x, y := y, format := "mvt" }).xmin =
      worldMercSize / (2 : ℚ) ^ z := by
    simp only [tileToEnvelope]
    ring
  have hy : (tileToEnvelope { zoom := z, x := x, y := y, format := "mvt" }).ymax -
      (tileToEnvelope { zoom := z, x := x, y := y, format := "mvt" }).ymin =
      worldMercSize / (2 : ℚ) ^ z := by
    simp only [tileToEnvelope]
    ring
  exact ⟨by rw [hx, hy], hx, by linarith, by linarith⟩

/-- Witness for C7: the square-tile facts at the concrete valid tile
`(z, x, y) = (1, 1, 1)`. -/
theorem tileToEnvelope_square_tiles_witness :
    (tileToEnvelope { zoom := 1, x := 1, y := 1, format := "mvt" }).xmax -
          (tileToEnvelope { zoom := 1, x := 1, y := 1, format := "mvt" }).xmin =
        (tileToEnvelope { zoom := 1, x := 1, y := 1, format := "mvt" }).ymax -
          (tileToEnvelope { zoom := 1, x := 1, y := 1, format := "mvt" }).ymin ∧
      (tileToEnvelope { zoom := 1, x := 1, y := 1, format := "mvt" }).xmax -
          (tileToEnvelope { zoom := 1, x := 1, y := 1, format := "mvt" }).xmin =
        worldMercSize / (2 : ℚ) ^ (1 : ℤ) ∧
      (tileToEnvelope { zoom := 1, x := 1, y := 1, format := "mvt" }).xmin <
        (tileToEnvelope { zoom := 1, x := 1, y := 1, format := "mvt" }).xmax ∧
      (tileToEnvelope { zoom := 1, x := 1, y := 1, format := "mvt" }).ymin <
        (tileToEnvelope { zoom := 1, x := 1, y := 1, format := "mvt" }).ymax :=
  tileToEnvelope_square_tiles 1 1 1 (by decide) (by decide) (by decide) (by decide)
    (by decide)

/-- Claim C8: query construction is deterministic — two runs with equal
`TileAddress` and equal `TableSpec` produce the identical query string. -/
theorem query_construction_deterministic (t1 t2 : Tile) (tb1 tb2 : TableSpec)
    (ht : t1 = t2) (htb : tb1 = tb2) :
    (envelopeToSQL tb1 (tileToEnvelope t1)).2.2 =
      (envelopeToSQL tb2 (tileToEnvelope t2)).2.2 := by
  rw [ht, htb]

/-- Witness for C8: determinism instantiated at a concrete tile and
table configuration. -/
theorem query_construction_deterministic_witness :
    (envelopeToSQL demoTable (tileToEnvelope demoTile)).2.2 =
      (envelopeToSQL demoTable (tileToEnvelope demoTile)).2.2 :=
  query_construction_deterministic demoTile demoTile demoTable demoTable rfl rfl

/-- Counterexample for C9: the densifier does not leave its input
envelope unchanged — on the world envelope of tile `(0,0,0)` the
post-state of the argument dict differs from the input (it gained the
`segSize` key). -/
theorem envelopeToBoundsSQL_mutates_input :
    (envelopeToBoundsSQL
        (tileToEnvelope { zoom := 0, x := 0, y := 0, format := "mvt" })).1 ≠
      tileToEnvelope { zoom := 0, x := 0, y := 0, format := "mvt" } := by
  intro h
  have h2 := congrArg Env.segSize h
  simp [envelopeToBoundsSQL, tileToEnvelope] at h2

/-- Claim C9 (amended): the densification step mutates its input
envelope in place, setting exactly its `segSize` entry to
`(xmax - xmin) / 4` and leaving the four corner coordinates unchanged;
query construction leaves the process-wide `TABLE` configuration
unchanged (it operates on a copy). -/
theorem densify_mutation_and_table_frame :
    (∀ env : Env,
        (envelopeToBoundsSQL env).1 =
          { env with segSize := some ((env.xmax - env.xmin) / 4) }) ∧
      ∀ (TABLE : TableSpec) (env : Env), (envelopeToSQL TABLE env).1 = TABLE :=
  ⟨fun _ => rfl, fun _ _ => rfl⟩

/-- Claim C10: `tileIsValid` performs no non-negativity check on the
zoom: at the tile `zoom = -1, x = 0, y = 0, format = mvt`, whose grid
size `2^zoom = 1/2` is fractional, it returns `true`. -/
theorem tileIsValid_accepts_negative_zoom :
    tileIsValid { zoom := -1, x := 0, y := 0, format := "mvt" } = true := by
  simp [tileIsValid]
